import Mathlib

/-!
Verification of the pixiserve media-intelligence pipeline.

Shallow embedding of the backend code under `app/` (Python, SQLAlchemy,
Celery).  Machine floats are modelled as exact rationals, database tables as
lists of records, Celery task graphs as explicit stage lists, and the
process-wide geocode cache as an association list threaded through the
calls.  Each definition is translated from a named function of the source;
theorems settle the specification claims against these definitions.
-/

namespace Pixiserve

/-! ### Non-maximum suppression (`app/ml/face_detection.py`, `app/ml/object_detection.py`) -/

/-- A face detection box, from `face_detection.DetectedFace`.  Coordinates are
normalized; floats are modelled as rationals. -/
structure FaceBox where
  bbox_x : ℚ
  bbox_y : ℚ
  bbox_width : ℚ
  bbox_height : ℚ
  confidence : ℚ
deriving DecidableEq

/-- Embeds `face_detection._calculate_iou` (lines 190-205): intersection over union of
two face boxes. -/
def calculate_iou_face (a b : FaceBox) : ℚ :=
  let x1 := max a.bbox_x b.bbox_x
  let y1 := max a.bbox_y b.bbox_y
  let x2 := min (a.bbox_x + a.bbox_width) (b.bbox_x + b.bbox_width)
  let y2 := min (a.bbox_y + a.bbox_height) (b.bbox_y + b.bbox_height)
  if x2 ≤ x1 ∨ y2 ≤ y1 then 0
  else
    let inter := (x2 - x1) * (y2 - y1)
    let uni := a.bbox_width * a.bbox_height + b.bbox_width * b.bbox_height - inter
    if 0 < uni then inter / uni else 0

/-- One iteration of the greedy keep-loop shared by both `_apply_nms`
implementations: a box is kept when its IoU with every already-kept box does
not exceed the threshold. -/
def nms_keep_step (iou : α → α → ℚ) (threshold : ℚ) (keep : List α) (b : α) : List α :=
  if keep.all (fun kept => decide (iou b kept ≤ threshold)) then keep ++ [b] else keep

/-- The greedy keep-loop of `_apply_nms`, over a confidence-sorted list. -/
def nms_greedy (iou : α → α → ℚ) (threshold : ℚ) (sorted : List α) : List α :=
  sorted.foldl (nms_keep_step iou threshold) []

/-- Embeds `face_detection._apply_nms` (lines 166-187): sort by confidence descending,
then greedily keep boxes whose IoU with every kept box is at most the
threshold. -/
def apply_nms_faces (faces : List FaceBox) (threshold : ℚ) : List FaceBox :=
  nms_greedy calculate_iou_face threshold
    (faces.mergeSort (fun a b => b.confidence ≤ a.confidence))

/-- An object detection, from `object_detection.DetectedObject`. -/
structure ObjBox where
  class_name : String
  class_id : ℕ
  bbox_x : ℚ
  bbox_y : ℚ
  bbox_width : ℚ
  bbox_height : ℚ
  confidence : ℚ
deriving DecidableEq

/-- Embeds `object_detection._calculate_iou` (lines 189-204). -/
def calculate_iou_obj (a b : ObjBox) : ℚ :=
  let x1 := max a.bbox_x b.bbox_x
  let y1 := max a.bbox_y b.bbox_y
  let x2 := min (a.bbox_x + a.bbox_width) (b.bbox_x + b.bbox_width)
  let y2 := min (a.bbox_y + a.bbox_height) (b.bbox_y + b.bbox_height)
  if x2 ≤ x1 ∨ y2 ≤ y1 then 0
  else
    let inter := (x2 - x1) * (y2 - y1)
    let uni := a.bbox_width * a.bbox_height + b.bbox_width * b.bbox_height - inter
    if 0 < uni then inter / uni else 0

/-- The distinct class ids of a detection list, in first-appearance order:
the iteration order of the `by_class` dict built in
`object_detection._apply_nms` (lines 161-165). -/
def object_class_ids (objects : List ObjBox) : List ℕ :=
  objects.foldl (fun acc o => if o.class_id ∈ acc then acc else acc ++ [o.class_id]) []

/-- Embeds `object_detection._apply_nms` (lines 155-186): group detections by
predicted class, then run the greedy suppression within each class group. -/
def apply_nms_objects (objects : List ObjBox) (threshold : ℚ) : List ObjBox :=
  (object_class_ids objects).flatMap fun c =>
    nms_greedy calculate_iou_obj threshold
      ((objects.filter (fun o => o.class_id == c)).mergeSort
        (fun a b => b.confidence ≤ a.confidence))

/-! ### Pipeline orchestration (`app/workers/tasks/ml_pipeline.py`,
`app/workers/tasks/object_scene.py`, `app/workers/tasks/face_processing.py`) -/

/-- The Celery tasks defined by the worker modules. -/
inductive Stage where
  | extract_exif
  | generate_thumbnails
  | extract_video_metadata
  | generate_video_thumbnail
  | process_extraction_results
  | update_asset_metadata
  | reverse_geocode
  | detect_and_encode_faces
  | detect_objects_task
  | classify_scene_task
  | cluster_faces
  | process_ml_intelligence
deriving DecidableEq

/-- The workflow submitted by `ml_pipeline.process_asset` (lines 52-78): a
Celery `chain` whose items run in order, each item a parallel `group` of
stages (a single task is a group of one). -/
def process_asset_workflow (asset_type : String) : List (List Stage) :=
  if asset_type = "video" then
    [[Stage.extract_video_metadata], [Stage.generate_video_thumbnail],
     [Stage.update_asset_metadata]]
  else
    [[Stage.extract_exif, Stage.generate_thumbnails],
     [Stage.process_extraction_results], [Stage.update_asset_metadata]]

/-- The stages a running stage can additionally enqueue via `.delay`/`group`,
read off each task body.  `process_extraction_results` enqueues geocoding
only when GPS is present; this over-approximates by always including it.
`update_asset_metadata` (the metadata-commit step) enqueues nothing
(`ml_pipeline.py` lines 147-240).  `process_ml_intelligence`
(`object_scene.py` lines 189-222) enqueues the three intelligence stages, and
`detect_and_encode_faces` (`face_processing.py` line 102) enqueues
clustering. -/
def stage_spawns : Stage → List Stage
  | Stage.process_extraction_results => [Stage.reverse_geocode]
  | Stage.process_ml_intelligence =>
      [Stage.detect_and_encode_faces, Stage.detect_objects_task, Stage.classify_scene_task]
  | Stage.detect_and_encode_faces => [Stage.cluster_faces]
  | _ => []

/-- One step of the spawn closure: add everything the current stages spawn. -/
def spawn_step (ss : List Stage) : List Stage :=
  (ss ++ ss.flatMap stage_spawns).dedup

/-- All stages that can ever run when a workflow is submitted: the workflow's
own stages closed under dynamic spawning (12 iterations suffice since there
are 12 stages). -/
def reachable_stages (w : List (List Stage)) : List Stage :=
  spawn_step^[12] w.flatten

/-! ### Faces, people and clustering (`app/models/face.py`, `app/models/asset.py`,
`app/workers/tasks/face_processing.py`, `app/api/v1/people.py`)

UUIDs are modelled as naturals; rows as records; a session/database as lists
of rows. -/

/-- The columns of `assets` the clustering and people code reads. -/
structure AssetRow where
  id : ℕ
  owner_id : ℕ
deriving DecidableEq

/-- The columns of `faces` (`models/face.py`) the clustering and people code
reads or writes. -/
structure FaceRow where
  id : ℕ
  asset_id : ℕ
  person_id : Option ℕ
  embedding : Option (List ℚ)
deriving DecidableEq

/-- The columns of `people` (`models/face.py`) the clustering and people code
reads or writes. -/
structure PersonRow where
  id : ℕ
  owner_id : ℕ
  name : Option String
  cover_face_id : Option ℕ
  is_hidden : Bool
  is_favorite : Bool
  face_count : ℕ
  merged_into_id : Option ℕ
deriving DecidableEq

/-- The tables touched by clustering and people endpoints. -/
structure PeopleDb where
  assets : List AssetRow
  faces : List FaceRow
  people : List PersonRow
deriving DecidableEq

/-- The fetch query of `face_processing.cluster_faces` (lines 134-140):
`select(Face).join(Face.asset).where(Face.person_id.is_(None))
.where(Face.embedding.isnot(None))`.  The join requires the parent asset to
exist; the query contains no condition on the owner, so `owner_id` is unused
here exactly as in the source. -/
def cluster_faces_fetch (db : PeopleDb) (owner_id : ℕ) : List FaceRow :=
  db.faces.filter fun f =>
    db.assets.any (fun a => a.id == f.asset_id) && f.person_id.isNone && f.embedding.isSome

/-- Owner of the asset a face belongs to. -/
def face_owner (db : PeopleDb) (f : FaceRow) : Option ℕ :=
  (db.assets.find? (fun a => a.id == f.asset_id)).map (fun a => a.owner_id)

/-- The loop of `cluster_faces` lines 176-181: walk the cluster's face ids and
take the `person_id` of the first member that has one (the `break`). -/
def first_assigned_person_id (db : PeopleDb) (cluster_face_ids : List ℕ) : Option ℕ :=
  cluster_face_ids.findSome? fun fid =>
    (db.faces.find? (fun f => f.id == fid)).bind (fun f => f.person_id)

/-- The per-cluster body of `cluster_faces` (lines 174-204): look for an
existing person among the cluster members, otherwise create a new `Person`
with `face_count = len(cluster_face_ids)`; assign every member face to the
target; set the target's `face_count` to `len(cluster_face_ids)`; set the
cover face if unset.  `new_person_id` models the id the database assigns at
`session.flush()`. -/
def assign_cluster (db : PeopleDb) (owner_id : ℕ) (cluster_face_ids : List ℕ)
    (new_person_id : ℕ) : PeopleDb :=
  let existing : Option PersonRow :=
    match first_assigned_person_id db cluster_face_ids with
    | some pid => db.people.find? (fun p => p.id == pid)
    | none => none
  let target : PersonRow :=
    match existing with
    | some p => p
    | none =>
        { id := new_person_id, owner_id := owner_id, name := none,
          cover_face_id := none, is_hidden := false, is_favorite := false,
          face_count := cluster_face_ids.length, merged_into_id := none }
  let people1 : List PersonRow :=
    match existing with
    | some _ => db.people
    | none => db.people ++ [target]
  let faces1 : List FaceRow :=
    db.faces.map fun f =>
      if f.id ∈ cluster_face_ids then { f with person_id := some target.id } else f
  let people2 : List PersonRow :=
    people1.map fun p =>
      if p.id == target.id then
        { p with
          face_count := cluster_face_ids.length,
          cover_face_id :=
            if p.cover_face_id.isNone && !cluster_face_ids.isEmpty then
              cluster_face_ids.head?
            else p.cover_face_id }
      else p
  { db with faces := faces1, people := people2 }

/-- Number of face rows whose `person_id` points at the given person. -/
def faces_pointing_to (db : PeopleDb) (pid : ℕ) : ℕ :=
  (db.faces.filter (fun f => f.person_id == some pid)).length

/-- The manual merge endpoint `people.merge_people`
(`app/api/v1/people.py` lines 184-233).  Returns the HTTP error status when
the handler raises before mutating anything, and the committed database
otherwise.  The response body is read-only and omitted. -/
def merge_people_api (db : PeopleDb) (current_user_id : ℕ) (person_id merge_into_id : ℕ) :
    Option ℕ × PeopleDb :=
  let person_keep? := db.people.find? (fun p => p.id == person_id)
  let person_merge? := db.people.find? (fun p => p.id == merge_into_id)
  match person_keep? with
  | none => (some 404, db)
  | some person_keep =>
    if person_keep.owner_id ≠ current_user_id then (some 404, db)
    else
      match person_merge? with
      | none => (some 404, db)
      | some person_merge =>
        if person_merge.owner_id ≠ current_user_id then (some 404, db)
        else if person_keep.id = person_merge.id then (some 400, db)
        else
          let faces1 := db.faces.map fun f =>
            if f.person_id == some person_merge.id then
              { f with person_id := some person_keep.id }
            else f
          let people1 := db.people.map fun p =>
            if p.id == person_keep.id then
              { p with face_count := p.face_count + person_merge.face_count }
            else if p.id == person_merge.id then
              { p with face_count := 0, merged_into_id := some person_keep.id }
            else p
          (none, { db with faces := faces1, people := people1 })

/-! ### Object / scene tag stages (`app/models/tag.py`,
`app/workers/tasks/object_scene.py`) -/

/-- Embeds `models/tag.py` `TagType` (object/scene are the pipeline-created kinds). -/
inductive TagType where
  | object
  | scene
  | manual
  | color
  | text
deriving DecidableEq

/-- The columns of `tags` the tag tasks read or write. -/
structure TagRow where
  id : ℕ
  name : String
  tag_type : TagType
  usage_count : ℕ
deriving DecidableEq

/-- The columns of `asset_tags` the tag tasks write.  The table carries a
database-level `UniqueConstraint("asset_id", "tag_id")`. -/
structure AssetTagRow where
  asset_id : ℕ
  tag_id : ℕ
  confidence : ℚ
  bbox_x : Option ℚ
  bbox_y : Option ℚ
  bbox_width : Option ℚ
  bbox_height : Option ℚ
  source : String
deriving DecidableEq

/-- The tables touched by the tag tasks.  `next_tag_id` models the id the
database assigns to a freshly flushed `Tag`. -/
structure TagDb where
  tags : List TagRow
  asset_tags : List AssetTagRow
  next_tag_id : ℕ
deriving DecidableEq

/-- The loop body of `object_scene.detect_objects_task` (lines 51-87): get or
create the `(name, OBJECT)` tag, then unconditionally add a new `AssetTag`
row for it and bump the tag's usage count. -/
def insert_object_tag (asset_id : ℕ) (db : TagDb) (obj : ObjBox) : TagDb :=
  match db.tags.find? (fun t => t.name == obj.class_name && t.tag_type == TagType.object) with
  | some t =>
      { db with
        asset_tags := db.asset_tags ++
          [{ asset_id := asset_id, tag_id := t.id, confidence := obj.confidence,
             bbox_x := some obj.bbox_x, bbox_y := some obj.bbox_y,
             bbox_width := some obj.bbox_width, bbox_height := some obj.bbox_height,
             source := "yolov8" }],
        tags := db.tags.map fun u =>
          if u.id == t.id then { u with usage_count := u.usage_count + 1 } else u }
  | none =>
      { tags := db.tags ++
          [{ id := db.next_tag_id, name := obj.class_name, tag_type := TagType.object,
             usage_count := 1 }],
        asset_tags := db.asset_tags ++
          [{ asset_id := asset_id, tag_id := db.next_tag_id, confidence := obj.confidence,
             bbox_x := some obj.bbox_x, bbox_y := some obj.bbox_y,
             bbox_width := some obj.bbox_width, bbox_height := some obj.bbox_height,
             source := "yolov8" }],
        next_tag_id := db.next_tag_id + 1 }

/-- The database effect of one delivery of `detect_objects_task` on the given
detections (lines 48-89): the loop over detected objects. -/
def detect_objects_task_db (asset_id : ℕ) (objects : List ObjBox) (db : TagDb) : TagDb :=
  objects.foldl (insert_object_tag asset_id) db

/-- A scene classification result, from `scene_classification` as consumed by
`classify_scene_task`. -/
structure SceneScore where
  scene_name : String
  confidence : ℚ
deriving DecidableEq

/-- The loop body of `object_scene.classify_scene_task` (lines 139-175):
skip low-confidence scenes, get or create the `(name, SCENE)` tag, then
unconditionally add a new `AssetTag` row and bump the usage count. -/
def insert_scene_tag (asset_id : ℕ) (db : TagDb) (scene : SceneScore) : TagDb :=
  if scene.confidence < 1/10 then db
  else
    match db.tags.find? (fun t => t.name == scene.scene_name && t.tag_type == TagType.scene) with
    | some t =>
        { db with
          asset_tags := db.asset_tags ++
            [{ asset_id := asset_id, tag_id := t.id, confidence := scene.confidence,
               bbox_x := none, bbox_y := none, bbox_width := none, bbox_height := none,
               source := "places365" }],
          tags := db.tags.map fun u =>
            if u.id == t.id then { u with usage_count := u.usage_count + 1 } else u }
    | none =>
        { tags := db.tags ++
            [{ id := db.next_tag_id, name := scene.scene_name, tag_type := TagType.scene,
               usage_count := 1 }],
          asset_tags := db.asset_tags ++
            [{ asset_id := asset_id, tag_id := db.next_tag_id, confidence := scene.confidence,
               bbox_x := none, bbox_y := none, bbox_width := none, bbox_height := none,
               source := "places365" }],
          next_tag_id := db.next_tag_id + 1 }

/-- The database effect of one delivery of `classify_scene_task` (lines
136-177). -/
def classify_scene_task_db (asset_id : ℕ) (scenes : List SceneScore) (db : TagDb) : TagDb :=
  scenes.foldl (insert_scene_tag asset_id) db

/-- How many `asset_tags` rows associate the given asset with the given tag. -/
def count_asset_tag (db : TagDb) (asset_id tag_id : ℕ) : ℕ :=
  (db.asset_tags.filter (fun r => r.asset_id == asset_id && r.tag_id == tag_id)).length

/-! ### Ingest deduplication (`app/services/asset_service.py`,
`app/api/v1/assets.py`)

`hashlib`, `pathlib.Path(...).suffix.lower()` and `mimetypes.guess_type` are
standard-library collaborators, passed in as functions. -/

/-- The columns of `assets` (`models/asset.py`) the ingest path reads or
writes. -/
structure AssetIngestRow where
  id : ℕ
  owner_id : ℕ
  file_hash_sha256 : String
  original_filename : Option String
  storage_path : String
  file_size_bytes : ℕ
  mime_type : String
  asset_type : String
  deleted_at : Option ℕ
deriving DecidableEq

/-- The columns of `users` the ingest path touches. -/
structure UserRow where
  id : ℕ
  storage_used_bytes : ℕ
deriving DecidableEq

/-- An uploaded file: declared content type, filename, raw bytes. -/
structure UpFile where
  content_type : Option String
  filename : Option String
  content : List ℕ
deriving DecidableEq

/-- Database plus storage backend state for ingest.  `next_asset_id` models
`uuid4` id assignment; `storage_files` the storage backend's `write`. -/
structure IngestState where
  assets : List AssetIngestRow
  next_asset_id : ℕ
  storage_files : List (String × List ℕ)
deriving DecidableEq

/-- Embeds `asset_service.ALLOWED_IMAGE_TYPES`. -/
def allowed_image_types : List String :=
  ["image/jpeg", "image/png", "image/gif", "image/webp", "image/heic",
   "image/heif", "image/avif", "image/tiff", "image/bmp"]

/-- Embeds `asset_service.ALLOWED_VIDEO_TYPES`. -/
def allowed_video_types : List String :=
  ["video/mp4", "video/quicktime", "video/x-msvideo", "video/x-matroska",
   "video/webm", "video/mpeg"]

/-- Embeds `asset_service.ALLOWED_TYPES`. -/
def allowed_types : List String := allowed_image_types ++ allowed_video_types

/-- Embeds `asset_service.get_asset_type` (lines 40-45). -/
def get_asset_type (mime_type : String) : String :=
  if mime_type ∈ allowed_image_types then "image"
  else if mime_type ∈ allowed_video_types then "video"
  else "unknown"

/-- Python `a or b` on optional strings: `None` and the empty string are
falsy. -/
def py_or_str (a : Option String) (b : Option String) : Option String :=
  match a with
  | some s => if s = "" then b else some s
  | none => b

/-- Embeds `file.content_type or mimetypes.guess_type(file.filename or "")[0]`
(`asset_service.create_asset` line 86). -/
def resolve_mime (guess_type : String → Option String) (f : UpFile) : Option String :=
  py_or_str f.content_type (guess_type ((py_or_str f.filename (some (""))).getD ("")))

/-- Embeds `asset_service.generate_storage_path` (lines 48-58); `suffix_lower` models
`Path(filename).suffix.lower()`. -/
def generate_storage_path (suffix_lower : String → String) (file_hash : String)
    (filename : Option String) : String :=
  let ext := match filename with
    | some n => suffix_lower n
    | none => ""
  "originals/" ++ file_hash.take 2 ++ "/" ++ (file_hash.drop 2).take 2 ++ "/" ++
    file_hash ++ ext

/-- SQLAlchemy `scalar_one_or_none`: none for no row, the row when unique,
and `MultipleResultsFound` otherwise. -/
def scalar_one_or_none (rows : List α) : Except String (Option α) :=
  match rows with
  | [] => Except.ok none
  | [a] => Except.ok (some a)
  | _ => Except.error ("MultipleResultsFound")

/-- Embeds `asset_service.get_asset_by_hash` (lines 61-72): the owner's non-deleted
asset with the given content hash. -/
def get_asset_by_hash (assets : List AssetIngestRow) (user_id : ℕ) (file_hash : String) :
    Except String (Option AssetIngestRow) :=
  scalar_one_or_none (assets.filter fun a =>
    a.owner_id == user_id && a.file_hash_sha256 == file_hash && a.deleted_at.isNone)

/-- Embeds `asset_service.create_asset` (lines 75-124).  `sha256` models
`compute_sha256_async`.  Returns the raised error, or the asset together with
the `is_duplicate` flag and the updated database, user and storage. -/
def create_asset (sha256 : List ℕ → String) (suffix_lower : String → String)
    (guess_type : String → Option String) (s : IngestState) (user : UserRow) (f : UpFile) :
    Except String (IngestState × UserRow × AssetIngestRow × Bool) :=
  match resolve_mime guess_type f with
  | none => Except.error ("Unsupported file type")
  | some mime_type =>
    if mime_type ∉ allowed_types then Except.error ("Unsupported file type")
    else
      let file_hash := sha256 f.content
      match get_asset_by_hash s.assets user.id file_hash with
      | Except.error e => Except.error e
      | Except.ok (some existing) => Except.ok (s, user, existing, true)
      | Except.ok none =>
          let storage_path := generate_storage_path suffix_lower file_hash f.filename
          let asset : AssetIngestRow :=
            { id := s.next_asset_id, owner_id := user.id, file_hash_sha256 := file_hash,
              original_filename := f.filename, storage_path := storage_path,
              file_size_bytes := f.content.length, mime_type := mime_type,
              asset_type := get_asset_type mime_type, deleted_at := none }
          Except.ok
            ({ assets := s.assets ++ [asset], next_asset_id := s.next_asset_id + 1,
               storage_files := s.storage_files ++ [(storage_path, f.content)] },
             { user with storage_used_bytes := user.storage_used_bytes + f.content.length },
             asset, false)

/-- A queued `process_asset.delay(asset_id, storage_path, asset_type,
owner_id)` call. -/
structure QueuedJob where
  asset_id : ℕ
  storage_path : String
  asset_type : String
  owner_id : ℕ
deriving DecidableEq

/-- The outcome of the upload endpoint: HTTP-level response, final state, and
the pipeline jobs it enqueued. -/
structure UploadOutcome where
  response : Except String (AssetIngestRow × Bool)
  state : IngestState
  user : UserRow
  queued : List QueuedJob

/-- Embeds `assets.upload_asset` (`app/api/v1/assets.py` lines 24-63): create the
asset, then queue `process_asset` only when it is not a duplicate. -/
def upload_asset (sha256 : List ℕ → String) (suffix_lower : String → String)
    (guess_type : String → Option String) (s : IngestState) (user : UserRow) (f : UpFile) :
    UploadOutcome :=
  match create_asset sha256 suffix_lower guess_type s user f with
  | Except.error e => { response := Except.error e, state := s, user := user, queued := [] }
  | Except.ok (s1, user1, asset, is_duplicate) =>
      { response := Except.ok (asset, is_duplicate),
        state := s1, user := user1,
        queued :=
          if is_duplicate then []
          else [{ asset_id := asset.id, storage_path := asset.storage_path,
                  asset_type := asset.asset_type, owner_id := user.id }] }

/-! ### Reverse geocoding (`app/workers/tasks/geocoding.py`) -/

/-- Python `round` at banker's-rounding (round-half-to-even) semantics, on
exact rationals. -/
def round_half_even (q : ℚ) : ℤ :=
  if q - ⌊q⌋ < 1/2 then ⌊q⌋
  else if 1/2 < q - ⌊q⌋ then ⌊q⌋ + 1
  else if ⌊q⌋ % 2 = 0 then ⌊q⌋ else ⌊q⌋ + 1

/-- Embeds `geocoding._round_coords` (lines 21-23): both coordinates rounded to 3
decimal places. -/
def round_coords (lat lon : ℚ) : ℚ × ℚ :=
  ((round_half_even (lat * 1000) : ℚ) / 1000, (round_half_even (lon * 1000) : ℚ) / 1000)

/-- What one call to the external service (`_geocode_with_nominatim`, lines
26-75) would do: return a `(city, state, country)` triple — including the
all-`None` "no result" outcome — or raise a transient geocoder error. -/
inductive GeoService where
  | success (city state country : Option String)
  | failure
deriving DecidableEq

/-- One incoming `reverse_geocode` request, carrying the behaviour the
external service would exhibit if called. -/
structure GeoRequest where
  asset_id : ℕ
  lat : ℚ
  lon : ℚ
  service : GeoService
deriving DecidableEq

/-- The process-wide `_geocode_cache` dict (line 18). -/
def GeoCache : Type :=
  List ((ℚ × ℚ) × (Option String × Option String × Option String))

/-- Result of one delivery of the `reverse_geocode` task (lines 85-130):
`result` is `none` when the task raised, `made_external_call` records whether
the external service was contacted, `cache` is the cache afterwards. -/
structure GeoOutcome where
  result : Option (Option String × Option String × Option String)
  made_external_call : Bool
  cache : GeoCache

/-- Embeds `geocoding.reverse_geocode` (lines 85-130): serve from the cache when the
rounded key is present; otherwise call the external service, caching the
triple on success (the "no result" triple included) and raising on a
transient service error without caching. -/
def reverse_geocode_step (cache : GeoCache) (req : GeoRequest) : GeoOutcome :=
  let cache_key := round_coords req.lat req.lon
  match cache.find? (fun e => decide (e.1 = cache_key)) with
  | some e => { result := some e.2, made_external_call := false, cache := cache }
  | none =>
    match req.service with
    | GeoService.success city state country =>
        { result := some (city, state, country), made_external_call := true,
          cache := (cache_key, (city, state, country)) :: cache }
    | GeoService.failure =>
        { result := none, made_external_call := true, cache := cache }

/-- The cache after a sequence of `reverse_geocode` deliveries within one
process lifetime. -/
def run_geo_trace (cache : GeoCache) (reqs : List GeoRequest) : GeoCache :=
  reqs.foldl (fun c r => (reverse_geocode_step c r).cache) cache

/-! ### Concrete states used by counterexamples and witnesses -/

/-- Two owners (10 and 20), each with one asset carrying one unassigned,
embedded face. -/
def db_two_owners : PeopleDb :=
  { assets := [{ id := 1, owner_id := 10 }, { id := 2, owner_id := 20 }],
    faces :=
      [{ id := 1, asset_id := 1, person_id := none, embedding := some [1] },
       { id := 2, asset_id := 2, person_id := none, embedding := some [1] }],
    people := [] }

/-- Owner 10 with person 5 holding faces 0 and 1 (`face_count = 2`), plus the
unassigned face 2. -/
def db_person_with_faces : PeopleDb :=
  { assets := [{ id := 1, owner_id := 10 }],
    faces :=
      [{ id := 0, asset_id := 1, person_id := some 5, embedding := some [1] },
       { id := 1, asset_id := 1, person_id := some 5, embedding := some [1] },
       { id := 2, asset_id := 1, person_id := none, embedding := some [1] }],
    people :=
      [{ id := 5, owner_id := 10, name := none, cover_face_id := some 0,
         is_hidden := false, is_favorite := false, face_count := 2,
         merged_into_id := none }] }

/-- Two detections of class `dog` in one image, as per-class NMS legitimately
returns for a photo with two dogs. -/
def dog_box_a : ObjBox :=
  { class_name := "dog", class_id := 16, bbox_x := 0, bbox_y := 0,
    bbox_width := 1, bbox_height := 1, confidence := 1 }

/-- A second, disjoint `dog` detection. -/
def dog_box_b : ObjBox :=
  { class_name := "dog", class_id := 16, bbox_x := 2, bbox_y := 2,
    bbox_width := 1, bbox_height := 1, confidence := 1 }

/-- An empty tag database whose next flushed tag id is 7. -/
def tag_db0 : TagDb := { tags := [], asset_tags := [], next_tag_id := 7 }

/-- A person of owner 10 holding two faces. -/
def person_a : PersonRow :=
  { id := 1, owner_id := 10, name := none, cover_face_id := none,
    is_hidden := false, is_favorite := false, face_count := 2,
    merged_into_id := none }

/-- A second person of owner 10 holding one face. -/
def person_b : PersonRow :=
  { id := 2, owner_id := 10, name := none, cover_face_id := none,
    is_hidden := false, is_favorite := false, face_count := 1,
    merged_into_id := none }

/-- Owner 10 with persons 1 and 2; faces 1 and 2 belong to person 1, face 3
to person 2. -/
def db_merge_ex : PeopleDb :=
  { assets := [{ id := 1, owner_id := 10 }],
    faces :=
      [{ id := 1, asset_id := 1, person_id := some 1, embedding := none },
       { id := 2, asset_id := 1, person_id := some 1, embedding := none },
       { id := 3, asset_id := 1, person_id := some 2, embedding := none }],
    people := [person_a, person_b] }

/-- An upload whose declared type is PNG and whose bytes are `[1, 2, 3]`. -/
def up_file_ex : UpFile :=
  { content_type := some ("image/png"), filename := some ("photo.png"),
    content := [1, 2, 3] }

/-- An existing, non-deleted asset of owner 10 holding hash `h123`. -/
def asset_ex : AssetIngestRow :=
  { id := 1, owner_id := 10, file_hash_sha256 := "h123",
    original_filename := some ("photo.png"),
    storage_path := "originals/h1/23/h123.png", file_size_bytes := 3,
    mime_type := "image/png", asset_type := "image", deleted_at := none }

/-- Ingest state holding just `asset_ex`. -/
def ingest_state_ex : IngestState :=
  { assets := [asset_ex], next_asset_id := 2, storage_files := [] }

/-- The soft-deleted variant of `asset_ex`. -/
def asset_deleted_ex : AssetIngestRow :=
  { asset_ex with deleted_at := some 5 }

/-- Ingest state where the only asset matching the hash is soft-deleted. -/
def ingest_state_deleted_ex : IngestState :=
  { assets := [asset_deleted_ex], next_asset_id := 2, storage_files := [] }

/-- The uploading user. -/
def user_ex : UserRow := { id := 10, storage_used_bytes := 3 }

/-- A geocode request at the origin whose service call would answer with a
country. -/
def geo_req_ex : GeoRequest :=
  { asset_id := 1, lat := 0, lon := 0,
    service := GeoService.success none none (some ("France")) }

/-! ## Theorems -/

/-! ### C1 — the image pipeline never reaches the visual-intelligence stages -/

/-- C1: contrary to the claim, the workflow that `process_asset` submits for
an image ends at `update_asset_metadata` (the CommitAssetMetadata step), which
enqueues nothing further: `detect_and_encode_faces`, `detect_objects_task` and
`classify_scene_task` are unreachable from the submitted image pipeline, and
so is the clustering they would trigger.  `process_ml_intelligence`, the task
that would fan the three stages out, is itself never enqueued. -/
theorem process_asset_never_reaches_intelligence :
    Stage.detect_and_encode_faces ∉ reachable_stages (process_asset_workflow ("image")) ∧
    Stage.detect_objects_task ∉ reachable_stages (process_asset_workflow ("image")) ∧
    Stage.classify_scene_task ∉ reachable_stages (process_asset_workflow ("image")) ∧
    Stage.cluster_faces ∉ reachable_stages (process_asset_workflow ("image")) ∧
    stage_spawns Stage.update_asset_metadata = [] ∧
    Stage.detect_and_encode_faces ∈ stage_spawns Stage.process_ml_intelligence ∧
    Stage.process_ml_intelligence ∉ reachable_stages (process_asset_workflow ("image")) := by
  decide

/-! ### C2 — the clustering fetch is not restricted to the owner -/

/-- C2: contrary to the claim, the face set fetched by
`cluster_faces(owner_id)` is not restricted to the owner: running it for
owner 10 on `db_two_owners` fetches owner 20's face, because the query joins
`Face.asset` but never filters on the owner. -/
theorem cluster_faces_fetch_crosses_owners :
    ∃ f ∈ cluster_faces_fetch db_two_owners 10, face_owner db_two_owners f = some 20 := by
  decide

/-! ### C3 — the cluster target's `face_count` is set to the cluster size -/

/-- C3: contrary to the claim, when a cluster is assigned to an existing
person the code sets `face_count = len(cluster_face_ids)` instead of
recomputing the total: assigning cluster `[1, 2]` (face 1 already belongs to
person 5, who also holds face 0) leaves person 5 with `face_count = 2` while
three faces point at it. -/
theorem assign_cluster_sets_cluster_size_not_total :
    ((assign_cluster db_person_with_faces 10 [1, 2] 99).people.find?
        (fun p => p.id == 5)).map (fun p => p.face_count) = some 2 ∧
    faces_pointing_to (assign_cluster db_person_with_faces 10 [1, 2] 99) 5 = 3 := by
  decide

/-! ### C4 — the tag stages insert duplicate `(asset, tag)` associations -/

/-- C4: contrary to the claim, `detect_objects_task` never checks existing
rows: two detections of class `dog` for one asset yield two `asset_tags` rows
with the same `(asset_id, tag_id)`, and so does re-delivering the stage for
an asset already tagged `dog` — rows the table's unique constraint then
rejects at commit. -/
theorem detect_objects_task_duplicates_asset_tag :
    count_asset_tag (detect_objects_task_db 1 [dog_box_a, dog_box_b] tag_db0) 1 7 = 2 ∧
    count_asset_tag
      (detect_objects_task_db 1 [dog_box_a] (detect_objects_task_db 1 [dog_box_a] tag_db0))
      1 7 = 2 := by
  decide

/-! ### C5 / C6 — the manual merge endpoint -/

/-- The lookup `find?` commutes with a map that leaves the searched predicate
invariant. -/
theorem find?_map_invariant {α : Type} (g : α → α) (p : α → Bool)
    (hg : ∀ a, p (g a) = p a) :
    ∀ l : List α, (l.map g).find? p = (l.find? p).map g := by
  intro l
  induction l with
  | nil => rfl
  | cons a l ih =>
    by_cases hpa : p a = true
    · rw [List.map_cons, List.find?_cons_of_pos _ (by rw [hg]; exact hpa),
        List.find?_cons_of_pos _ hpa]
      rfl
    · rw [List.map_cons, List.find?_cons_of_neg _ (by rw [hg]; simpa using hpa),
        List.find?_cons_of_neg _ (by simpa using hpa), ih]

/-- C5: merging person B (id `bId`) into person A (id `aId`) through the
people endpoint succeeds when both exist, belong to the caller and are
distinct; afterwards B carries `face_count = 0` and `merged_into_id = A`,
every face that pointed at B points at A (and none points at B), and A's
`face_count` is the sum of both previous counts. -/
theorem merge_people_api_moves_faces_and_counts
    (db : PeopleDb) (uid aId bId : ℕ) (A B : PersonRow)
    (hA : db.people.find? (fun p => p.id == aId) = some A)
    (hB : db.people.find? (fun p => p.id == bId) = some B)
    (hAo : A.owner_id = uid) (hBo : B.owner_id = uid)
    (hne : aId ≠ bId)
    (hAm : A.merged_into_id = none) (hBm : B.merged_into_id = none) :
    (merge_people_api db uid aId bId).1 = none ∧
    ((merge_people_api db uid aId bId).2.people.find? (fun p => p.id == bId)) =
      some { B with face_count := 0, merged_into_id := some aId } ∧
    ((merge_people_api db uid aId bId).2.people.find? (fun p => p.id == aId)) =
      some { A with face_count := A.face_count + B.face_count } ∧
    (∀ f ∈ db.faces, f.person_id = some bId →
      { f with person_id := some aId } ∈ (merge_people_api db uid aId bId).2.faces) ∧
    (∀ f ∈ (merge_people_api db uid aId bId).2.faces, f.person_id ≠ some bId) := by
  have hAid : A.id = aId := by simpa using List.find?_some hA
  have hBid : B.id = bId := by simpa using List.find?_some hB
  have hAB : ¬ A.id = B.id := by rw [hAid, hBid]; exact hne
  have hmerge : merge_people_api db uid aId bId =
      (none, { db with
        faces := db.faces.map fun f =>
          if f.person_id == some B.id then { f with person_id := some A.id } else f,
        people := db.people.map fun p =>
          if p.id == A.id then { p with face_count := p.face_count + B.face_count }
          else if p.id == B.id then { p with face_count := 0, merged_into_id := some A.id }
          else p }) := by
    simp [merge_people_api, hA, hB, hAo, hBo, hAB]
  have hgid : ∀ x : ℕ, ∀ q : PersonRow,
      (((if q.id == A.id then { q with face_count := q.face_count + B.face_count }
         else if q.id == B.id then { q with face_count := 0, merged_into_id := some A.id }
         else q) : PersonRow).id == x) = (q.id == x) := by
    intro x q
    by_cases h1 : (q.id == A.id) = true
    · simp [h1]
    · by_cases h2 : (q.id == B.id) = true <;> simp [h1, h2]
  have h1 : (B.id == A.id) = false := by
    simp only [beq_eq_false_iff_ne, ne_eq]
    intro h
    exact hAB h.symm
  refine ⟨by rw [hmerge], ?_, ?_, ?_, ?_⟩
  · rw [hmerge]
    rw [find?_map_invariant _ _ (hgid bId) db.people, hB]
    simp [h1, hAid]
    intro h
    rw [hBid] at h
    exact absurd h (Ne.symm hne)
  · rw [hmerge]
    rw [find?_map_invariant _ _ (hgid aId) db.people, hA]
    simp
  · intro f hf hfb
    rw [hmerge]
    have hgf : (if f.person_id == some B.id then { f with person_id := some A.id } else f)
        = { f with person_id := some aId } := by
      rw [hfb, hBid, hAid]
      simp
    rw [← hgf]
    exact List.mem_map_of_mem _ hf
  · intro f' hf'
    rw [hmerge] at hf'
    rcases List.mem_map.mp hf' with ⟨f, hf, rfl⟩
    by_cases hc : f.person_id == some B.id
    · simp only [hc, if_true]
      simp only [ne_eq, Option.some.injEq]
      rw [hAid]
      exact hne
    · simp only [hc, Bool.false_eq_true, if_false]
      intro h
      rw [h, hBid] at hc
      simp at hc

/-- C5 witness: merging person 2 into person 1 on `db_merge_ex` behaves as
stated. -/
theorem merge_people_api_moves_faces_and_counts_witness :
    (merge_people_api db_merge_ex 10 1 2).1 = none ∧
    ((merge_people_api db_merge_ex 10 1 2).2.people.find? (fun p => p.id == 2)) =
      some { person_b with face_count := 0, merged_into_id := some 1 } ∧
    ((merge_people_api db_merge_ex 10 1 2).2.people.find? (fun p => p.id == 1)) =
      some { person_a with face_count := person_a.face_count + person_b.face_count } ∧
    (∀ f ∈ db_merge_ex.faces, f.person_id = some 2 →
      { f with person_id := some 1 } ∈ (merge_people_api db_merge_ex 10 1 2).2.faces) ∧
    (∀ f ∈ (merge_people_api db_merge_ex 10 1 2).2.faces, f.person_id ≠ some 2) :=
  merge_people_api_moves_faces_and_counts db_merge_ex 10 1 2 person_a person_b
    (by decide) (by decide) (by decide) (by decide) (by decide) (by decide) (by decide)

/-- C6: invoking the manual merge endpoint with the same person on both sides
is rejected (the lookups fail with 404, or the same-person check fires with
400) and the database is returned unchanged — no Face or Person record is
mutated. -/
theorem merge_people_api_self_merge_rejected (db : PeopleDb) (uid pid : ℕ) :
    (merge_people_api db uid pid pid).1.isSome = true ∧
    (merge_people_api db uid pid pid).2 = db := by
  cases h : db.people.find? (fun p => p.id == pid) with
  | none => simp [merge_people_api, h]
  | some keep =>
    by_cases ho : keep.owner_id = uid
    · simp [merge_people_api, h, ho]
    · simp [merge_people_api, h, ho]

/-! ### C7 — greedy NMS never keeps two overlapping boxes -/

/-- Face IoU is symmetric. -/
theorem calculate_iou_face_comm (a b : FaceBox) :
    calculate_iou_face a b = calculate_iou_face b a := by
  simp only [calculate_iou_face]
  rw [max_comm a.bbox_x b.bbox_x, max_comm a.bbox_y b.bbox_y,
    min_comm (a.bbox_x + a.bbox_width) (b.bbox_x + b.bbox_width),
    min_comm (a.bbox_y + a.bbox_height) (b.bbox_y + b.bbox_height),
    add_comm (a.bbox_width * a.bbox_height) (b.bbox_width * b.bbox_height)]

/-- Object IoU is symmetric. -/
theorem calculate_iou_obj_comm (a b : ObjBox) :
    calculate_iou_obj a b = calculate_iou_obj b a := by
  simp only [calculate_iou_obj]
  rw [max_comm a.bbox_x b.bbox_x, max_comm a.bbox_y b.bbox_y,
    min_comm (a.bbox_x + a.bbox_width) (b.bbox_x + b.bbox_width),
    min_comm (a.bbox_y + a.bbox_height) (b.bbox_y + b.bbox_height),
    add_comm (a.bbox_width * a.bbox_height) (b.bbox_width * b.bbox_height)]

/-- One greedy step keeps the kept list pairwise non-overlapping. -/
theorem nms_keep_step_pairwise {α : Type} (iou : α → α → ℚ) (t : ℚ)
    (hsymm : ∀ a b, iou a b = iou b a) (keep : List α) (b : α)
    (h : keep.Pairwise (fun x y => iou x y ≤ t)) :
    (nms_keep_step iou t keep b).Pairwise (fun x y => iou x y ≤ t) := by
  unfold nms_keep_step
  by_cases hall : keep.all (fun kept => decide (iou b kept ≤ t)) = true
  · rw [if_pos hall, List.pairwise_append]
    refine ⟨h, List.pairwise_singleton _ _, ?_⟩
    intro x hx y hy
    rw [List.mem_singleton] at hy
    subst hy
    have hxb := List.all_eq_true.mp hall x hx
    rw [hsymm]
    exact of_decide_eq_true hxb
  · rw [if_neg hall]
    exact h

/-- The greedy fold keeps the kept list pairwise non-overlapping. -/
theorem nms_greedy_fold_pairwise {α : Type} (iou : α → α → ℚ) (t : ℚ)
    (hsymm : ∀ a b, iou a b = iou b a) :
    ∀ (l keep : List α), keep.Pairwise (fun x y => iou x y ≤ t) →
      (l.foldl (nms_keep_step iou t) keep).Pairwise (fun x y => iou x y ≤ t) := by
  intro l
  induction l with
  | nil => intro keep h; exact h
  | cons b l ih =>
    intro keep h
    rw [List.foldl_cons]
    exact ih _ (nms_keep_step_pairwise iou t hsymm keep b h)

/-- The greedy suppression returns a pairwise non-overlapping list. -/
theorem nms_greedy_pairwise {α : Type} (iou : α → α → ℚ) (t : ℚ)
    (hsymm : ∀ a b, iou a b = iou b a) (l : List α) :
    (nms_greedy iou t l).Pairwise (fun x y => iou x y ≤ t) :=
  nms_greedy_fold_pairwise iou t hsymm l [] (List.Pairwise.nil)

/-- The greedy fold only returns elements of the accumulator or the input. -/
theorem nms_greedy_fold_subset {α : Type} (iou : α → α → ℚ) (t : ℚ) :
    ∀ (l keep : List α) (x : α), x ∈ l.foldl (nms_keep_step iou t) keep →
      x ∈ keep ∨ x ∈ l := by
  intro l
  induction l with
  | nil => intro keep x hx; exact Or.inl hx
  | cons b l ih =>
    intro keep x hx
    rw [List.foldl_cons] at hx
    rcases ih _ x hx with h | h
    · unfold nms_keep_step at h
      by_cases hall : (keep.all fun kept => decide (iou b kept ≤ t)) = true
      · rw [if_pos hall] at h
        rcases List.mem_append.mp h with h2 | h2
        · exact Or.inl h2
        · rw [List.mem_singleton] at h2
          subst h2
          exact Or.inr (List.mem_cons_self _ _)
      · rw [if_neg hall] at h
        exact Or.inl h
    · exact Or.inr (List.mem_cons_of_mem _ h)

/-- The greedy suppression returns a sublist of its input. -/
theorem nms_greedy_subset {α : Type} (iou : α → α → ℚ) (t : ℚ) (l : List α) (x : α)
    (hx : x ∈ nms_greedy iou t l) : x ∈ l := by
  rcases nms_greedy_fold_subset iou t l [] x hx with h | h
  · exact absurd h (List.not_mem_nil x)
  · exact h

/-- The collected class-id list has no duplicates. -/
theorem object_class_ids_nodup (objects : List ObjBox) :
    (object_class_ids objects).Nodup := by
  suffices h : ∀ (l : List ObjBox) (acc : List ℕ), acc.Nodup →
      (l.foldl (fun acc o => if o.class_id ∈ acc then acc else acc ++ [o.class_id]) acc).Nodup by
    exact h objects [] List.nodup_nil
  intro l
  induction l with
  | nil => intro acc h; exact h
  | cons o l ih =>
    intro acc h
    rw [List.foldl_cons]
    by_cases hmem : o.class_id ∈ acc
    · rw [if_pos hmem]
      exact ih _ h
    · rw [if_neg hmem]
      refine ih _ ?_
      rw [List.nodup_append]
      exact ⟨h, List.nodup_singleton _, by simpa using hmem⟩

/-- Every box kept for class `c` indeed has class id `c`. -/
theorem nms_class_member_class_id (objects : List ObjBox) (t : ℚ) (c : ℕ) (x : ObjBox)
    (hx : x ∈ nms_greedy calculate_iou_obj t
        ((objects.filter (fun o => o.class_id == c)).mergeSort
          (fun a b => b.confidence ≤ a.confidence))) :
    x.class_id = c := by
  have h1 := nms_greedy_subset _ _ _ _ hx
  rw [List.mem_mergeSort] at h1
  have h2 := (List.mem_filter.mp h1).2
  simpa using h2

/-- C7: non-maximum suppression never returns two boxes of the same class
whose IoU exceeds the threshold — for faces no two returned boxes at all
overlap above the threshold, and for objects the suppression holds per
predicted class. -/
theorem nms_returns_no_overlapping_boxes (faces : List FaceBox) (objects : List ObjBox)
    (t : ℚ) :
    (apply_nms_faces faces t).Pairwise (fun a b => calculate_iou_face a b ≤ t) ∧
    (apply_nms_objects objects t).Pairwise
      (fun a b => a.class_id = b.class_id → calculate_iou_obj a b ≤ t) := by
  constructor
  · exact nms_greedy_pairwise _ _ calculate_iou_face_comm _
  · unfold apply_nms_objects
    rw [List.flatMap_def, List.pairwise_flatten]
    constructor
    · intro l' hl'
      rcases List.mem_map.mp hl' with ⟨c, _, rfl⟩
      refine List.Pairwise.imp ?_ (nms_greedy_pairwise _ t calculate_iou_obj_comm _)
      intro a b h _
      exact h
    · rw [List.pairwise_map]
      refine (object_class_ids_nodup objects).imp ?_
      intro c1 c2 hne x hx y hy hxy
      exact absurd
        ((nms_class_member_class_id objects t c1 x hx).symm.trans
          (hxy.trans (nms_class_member_class_id objects t c2 y hy)))
        hne

/-! ### C8 / C10 — ingest deduplication -/

/-- C8: uploading bytes whose hash matches exactly one existing non-deleted
asset of the owner returns that asset marked as a duplicate, queues no
pipeline job, creates no asset record, and leaves the database, storage and
the owner's storage usage untouched. -/
theorem upload_duplicate_returns_existing
    (sha256 : List ℕ → String) (suffix_lower : String → String)
    (guess_type : String → Option String) (s : IngestState) (u : UserRow) (f : UpFile)
    (m : String) (a : AssetIngestRow)
    (hmime : resolve_mime guess_type f = some m)
    (hmem : m ∈ allowed_types)
    (hfind : s.assets.filter (fun b =>
        b.owner_id == u.id && b.file_hash_sha256 == sha256 f.content && b.deleted_at.isNone)
      = [a]) :
    upload_asset sha256 suffix_lower guess_type s u f =
      { response := Except.ok (a, true), state := s, user := u, queued := [] } := by
  simp [upload_asset, create_asset, get_asset_by_hash, scalar_one_or_none, hmime, hmem, hfind]

/-- C8 witness: re-uploading the bytes of `asset_ex` for owner 10. -/
theorem upload_duplicate_returns_existing_witness :
    upload_asset (fun _ => "h123") (fun _ => ".png") (fun _ => none)
      ingest_state_ex user_ex up_file_ex =
      { response := Except.ok (asset_ex, true), state := ingest_state_ex,
        user := user_ex, queued := [] } :=
  upload_duplicate_returns_existing (fun _ => "h123") (fun _ => ".png") (fun _ => none)
    ingest_state_ex user_ex up_file_ex ("image/png") asset_ex
    (by rfl) (by decide) (by decide)

/-- C10: when every asset of the owner carrying the uploaded hash is
soft-deleted, the upload creates and returns a brand-new asset with
`is_duplicate = false`, appends it to the table, and queues pipeline work for
it. -/
theorem upload_after_soft_delete_creates_new
    (sha256 : List ℕ → String) (suffix_lower : String → String)
    (guess_type : String → Option String) (s : IngestState) (u : UserRow) (f : UpFile)
    (m : String)
    (hmime : resolve_mime guess_type f = some m)
    (hmem : m ∈ allowed_types)
    (hdel : ∀ b ∈ s.assets, b.owner_id = u.id → b.file_hash_sha256 = sha256 f.content →
      b.deleted_at ≠ none)
    (hfresh : ∀ b ∈ s.assets, b.id ≠ s.next_asset_id) :
    ∃ A : AssetIngestRow,
      (upload_asset sha256 suffix_lower guess_type s u f).response = Except.ok (A, false) ∧
      A.id = s.next_asset_id ∧
      A.deleted_at = none ∧
      (upload_asset sha256 suffix_lower guess_type s u f).state.assets = s.assets ++ [A] ∧
      (upload_asset sha256 suffix_lower guess_type s u f).queued =
        [{ asset_id := A.id, storage_path := A.storage_path, asset_type := A.asset_type,
           owner_id := u.id }] ∧
      ∀ b ∈ s.assets, b.id ≠ A.id := by
  have hfilter : s.assets.filter (fun b =>
      b.owner_id == u.id && b.file_hash_sha256 == sha256 f.content && b.deleted_at.isNone)
      = [] := by
    rw [List.filter_eq_nil_iff]
    intro b hb hpred
    simp only [Bool.and_eq_true, beq_iff_eq, Option.isNone_iff_eq_none] at hpred
    exact hdel b hb hpred.1.1 hpred.1.2 hpred.2
  refine ⟨{ id := s.next_asset_id, owner_id := u.id, file_hash_sha256 := sha256 f.content,
            original_filename := f.filename,
            storage_path := generate_storage_path suffix_lower (sha256 f.content) f.filename,
            file_size_bytes := f.content.length, mime_type := m,
            asset_type := get_asset_type m, deleted_at := none }, ?_, rfl, rfl, ?_, ?_, ?_⟩
  · simp [upload_asset, create_asset, get_asset_by_hash, scalar_one_or_none, hmime, hmem,
      hfilter]
  · simp [upload_asset, create_asset, get_asset_by_hash, scalar_one_or_none, hmime, hmem,
      hfilter]
  · simp [upload_asset, create_asset, get_asset_by_hash, scalar_one_or_none, hmime, hmem,
      hfilter]
  · exact fun b hb => hfresh b hb

/-- C10 witness: re-uploading the bytes of the soft-deleted asset. -/
theorem upload_after_soft_delete_creates_new_witness :
    ∃ A : AssetIngestRow,
      (upload_asset (fun _ => "h123") (fun _ => ".png") (fun _ => none)
        ingest_state_deleted_ex user_ex up_file_ex).response = Except.ok (A, false) ∧
      A.id = ingest_state_deleted_ex.next_asset_id ∧
      A.deleted_at = none ∧
      (upload_asset (fun _ => "h123") (fun _ => ".png") (fun _ => none)
        ingest_state_deleted_ex user_ex up_file_ex).state.assets =
        ingest_state_deleted_ex.assets ++ [A] ∧
      (upload_asset (fun _ => "h123") (fun _ => ".png") (fun _ => none)
        ingest_state_deleted_ex user_ex up_file_ex).queued =
        [{ asset_id := A.id, storage_path := A.storage_path, asset_type := A.asset_type,
           owner_id := user_ex.id }] ∧
      ∀ b ∈ ingest_state_deleted_ex.assets, b.id ≠ A.id :=
  upload_after_soft_delete_creates_new (fun _ => "h123") (fun _ => ".png") (fun _ => none)
    ingest_state_deleted_ex user_ex up_file_ex ("image/png")
    (by rfl) (by decide) (by decide) (by decide)

/-! ### C9 — the geocode cache answers repeats without external calls -/

/-- One `reverse_geocode` delivery either leaves the cache alone or prepends
one entry. -/
theorem geo_step_cache_shape (c : GeoCache) (r : GeoRequest) :
    (reverse_geocode_step c r).cache = c ∨
    ∃ e, (reverse_geocode_step c r).cache = e :: c := by
  cases hf : List.find? (fun e => decide (e.1 = round_coords r.lat r.lon)) c with
  | some e =>
    left
    simp only [reverse_geocode_step, hf]
  | none =>
    cases hs : r.service with
    | success city state country =>
      right
      exact ⟨(round_coords r.lat r.lon, (city, state, country)),
        by simp only [reverse_geocode_step, hf, hs]⟩
    | failure =>
      left
      simp only [reverse_geocode_step, hf, hs]

/-- A found key stays found when an entry is prepended. -/
theorem find?_isSome_cons {α : Type} (e : α) (c : List α) (p : α → Bool)
    (h : (c.find? p).isSome = true) : ((e :: c).find? p).isSome = true := by
  by_cases hp : p e = true
  · rw [List.find?_cons_of_pos _ hp]
    rfl
  · rw [List.find?_cons_of_neg _ (by simpa using hp)]
    exact h

/-- A cached key survives any later delivery. -/
theorem geo_key_persists_step (c : GeoCache) (r : GeoRequest) (k : ℚ × ℚ)
    (h : (List.find? (fun e => decide (e.1 = k)) c).isSome = true) :
    (List.find? (fun e => decide (e.1 = k)) (reverse_geocode_step c r).cache).isSome = true := by
  rcases geo_step_cache_shape c r with hc | ⟨e, hc⟩
  · rw [hc]
    exact h
  · rw [hc]
    exact find?_isSome_cons e c _ h

/-- A cached key survives any sequence of later deliveries. -/
theorem geo_key_persists_trace (reqs : List GeoRequest) :
    ∀ (c : GeoCache) (k : ℚ × ℚ),
      (List.find? (fun e => decide (e.1 = k)) c).isSome = true →
      (List.find? (fun e => decide (e.1 = k)) (run_geo_trace c reqs)).isSome = true := by
  induction reqs with
  | nil => intro c k h; exact h
  | cons r reqs ih =>
    intro c k h
    exact ih _ k (geo_key_persists_step c r k h)

/-- After a delivery that completes successfully (cache hit, a service answer,
or the service's "no result" triple), the rounded key is in the cache. -/
theorem geo_success_caches (c : GeoCache) (r : GeoRequest)
    (h : (reverse_geocode_step c r).result.isSome = true) :
    (List.find? (fun e => decide (e.1 = round_coords r.lat r.lon))
      (reverse_geocode_step c r).cache).isSome = true := by
  cases hf : List.find? (fun e => decide (e.1 = round_coords r.lat r.lon)) c with
  | some e =>
    simp only [reverse_geocode_step, hf]
    rfl
  | none =>
    cases hs : r.service with
    | success city state country =>
      simp only [reverse_geocode_step, hf, hs]
      rw [List.find?_cons_of_pos _ (by simp)]
      rfl
    | failure =>
      simp only [reverse_geocode_step, hf, hs] at h
      exact absurd h (by simp)

/-- A delivery whose rounded key is cached makes no external call and
succeeds from the cache. -/
theorem geo_hit_no_call (c : GeoCache) (r : GeoRequest)
    (h : (List.find? (fun e => decide (e.1 = round_coords r.lat r.lon)) c).isSome = true) :
    (reverse_geocode_step c r).made_external_call = false ∧
    (reverse_geocode_step c r).result.isSome = true := by
  rcases Option.isSome_iff_exists.mp h with ⟨e, he⟩
  simp [reverse_geocode_step, he]

/-- C9: once one `reverse_geocode` delivery for a rounded key completes
successfully (a "no result" triple included), every later delivery whose
coordinates round to the same key — whatever happens in between — is answered
from the cache and makes no external geocoding call. -/
theorem reverse_geocode_cached_after_success
    (c : GeoCache) (r1 : GeoRequest) (reqs : List GeoRequest) (r2 : GeoRequest)
    (h1 : (reverse_geocode_step c r1).result.isSome = true)
    (h2 : round_coords r2.lat r2.lon = round_coords r1.lat r1.lon) :
    (reverse_geocode_step (run_geo_trace (reverse_geocode_step c r1).cache reqs)
      r2).made_external_call = false ∧
    (reverse_geocode_step (run_geo_trace (reverse_geocode_step c r1).cache reqs)
      r2).result.isSome = true := by
  have hk := geo_success_caches c r1 h1
  have hk2 := geo_key_persists_trace reqs _ _ hk
  exact geo_hit_no_call _ r2 (by rw [h2]; exact hk2)

/-- C9 witness: a second delivery for the origin after a successful first one,
with no requests in between. -/
theorem reverse_geocode_cached_after_success_witness :
    (reverse_geocode_step (run_geo_trace (reverse_geocode_step [] geo_req_ex).cache [])
      geo_req_ex).made_external_call = false ∧
    (reverse_geocode_step (run_geo_trace (reverse_geocode_step [] geo_req_ex).cache [])
      geo_req_ex).result.isSome = true :=
  reverse_geocode_cached_after_success [] geo_req_ex [] geo_req_ex (by rfl) rfl

end Pixiserve
